import Mathlib

/-!
Verification of the featherpg SQL front end (lexer, symbol interner,
diagnostics accumulator, recursive-descent parser) against its
natural-language specification.

The embedding works at the byte level, mirroring the Rust source:
source text is a `List Nat` of UTF-8 bytes, the lexer is a cursor over
byte offsets, and every fallible/panicking code path is modelled with
`Option` (`none` models a Rust panic: `unimplemented!`, a failed
`unwrap`, or a string-slice panic at a non-character-boundary).
Loops are modelled with an explicit fuel argument that every entry
point instantiates with `src.length + 1`; since each loop iteration
advances the cursor by at least one byte, this fuel can never be
exhausted on the paths the source can take.
-/

set_option maxRecDepth 8000

namespace FeatherPg

/-- Bytes of an ASCII string: for ASCII text the UTF-8 bytes coincide with
the character code points. Used only on ASCII literals. -/
def ascii (s : String) : List Nat := s.data.map Char.toNat

/-- `CodeRange` from pos.rs: half-open byte interval. Rust fields are
`start` and `end`; `end` is a reserved word in Lean so the second field is
named `stop`. -/
structure CodeRange where
  start : Nat
  stop : Nat
deriving DecidableEq, Repr

/-- `CodeDiagnostic` from diag.rs. -/
inductive CodeDiagnostic where
  | UnknownToken (range : CodeRange)
  | UnexpectedEof (range : CodeRange)
deriving DecidableEq, Repr

/-- The `thiserror`-derived display message of each diagnostic
(`#[error("unknown token")]`, `#[error("unexpected end of input")]`). -/
def CodeDiagnostic.message : CodeDiagnostic → String
  | .UnknownToken _ => "unknown token"
  | .UnexpectedEof _ => "unexpected end of input"

/-- `CodeError` from diag.rs: the terminal error value holding the
diagnostics list. -/
structure CodeError where
  diagnostics : List CodeDiagnostic
deriving DecidableEq, Repr

/-- `impl Display for CodeError` from diag.rs: zero diagnostics render a
sentinel line, one renders bare, several render a count header followed by
one message per line. `writeln!` appends a newline after each line. -/
def CodeError.render (e : CodeError) : String :=
  if e.diagnostics.length = 0 then
    "No errors\n"
  else if e.diagnostics.length = 1 then
    (e.diagnostics.headD (.UnknownToken ⟨0, 0⟩)).message ++ "\n"
  else
    toString e.diagnostics.length ++ " errors found:\n" ++
      String.join (e.diagnostics.map (fun d => d.message ++ "\n"))

/-- `CodeDiagnostics::has_errors` from diag.rs: true iff non-empty. -/
def hasErrors (diags : List CodeDiagnostic) : Bool := !diags.isEmpty

/-- `CodeDiagnostics::check_errors` from diag.rs: non-empty accumulator
becomes the terminal `CodeError`, otherwise the accumulator passes
through. -/
def checkErrors (diags : List CodeDiagnostic) :
    Except CodeError (List CodeDiagnostic) :=
  if hasErrors diags then .error ⟨diags⟩ else .ok diags

/-- The static keyword table from symbols.rs (`build_keywords!`):
spelling paired with its keyword id. 501 entries, ids 0 to 500. -/
def keywordEntries : List (String × Nat) := [
  ("", 0),
  ("abort", 1),
  ("absent", 2),
  ("absolute", 3),
  ("access", 4),
  ("action", 5),
  ("add", 6),
  ("admin", 7),
  ("after", 8),
  ("aggregate", 9),
  ("all", 10),
  ("also", 11),
  ("alter", 12),
  ("always", 13),
  ("analyse", 14),
  ("analyze", 15),
  ("and", 16),
  ("any", 17),
  ("array", 18),
  ("as", 19),
  ("asc", 20),
  ("asensitive", 21),
  ("assertion", 22),
  ("assignment", 23),
  ("asymmetric", 24),
  ("at", 25),
  ("atomic", 26),
  ("attach", 27),
  ("attribute", 28),
  ("authorization", 29),
  ("backward", 30),
  ("before", 31),
  ("begin", 32),
  ("between", 33),
  ("bigint", 34),
  ("binary", 35),
  ("bit", 36),
  ("boolean", 37),
  ("both", 38),
  ("breadth", 39),
  ("by", 40),
  ("cache", 41),
  ("call", 42),
  ("called", 43),
  ("cascade", 44),
  ("cascaded", 45),
  ("case", 46),
  ("cast", 47),
  ("catalog", 48),
  ("chain", 49),
  ("char", 50),
  ("character", 51),
  ("characteristics", 52),
  ("check", 53),
  ("checkpoint", 54),
  ("class", 55),
  ("close", 56),
  ("cluster", 57),
  ("coalesce", 58),
  ("collate", 59),
  ("collation", 60),
  ("column", 61),
  ("columns", 62),
  ("comment", 63),
  ("comments", 64),
  ("commit", 65),
  ("committed", 66),
  ("compression", 67),
  ("concurrently", 68),
  ("conditional", 69),
  ("configuration", 70),
  ("conflict", 71),
  ("connection", 72),
  ("constraint", 73),
  ("constraints", 74),
  ("content", 75),
  ("continue", 76),
  ("conversion", 77),
  ("copy", 78),
  ("cost", 79),
  ("create", 80),
  ("cross", 81),
  ("csv", 82),
  ("cube", 83),
  ("current", 84),
  ("current_catalog", 85),
  ("current_date", 86),
  ("current_role", 87),
  ("current_schema", 88),
  ("current_time", 89),
  ("current_timestamp", 90),
  ("current_user", 91),
  ("cursor", 92),
  ("cycle", 93),
  ("data", 94),
  ("database", 95),
  ("day", 96),
  ("deallocate", 97),
  ("dec", 98),
  ("decimal", 99),
  ("declare", 100),
  ("default", 101),
  ("defaults", 102),
  ("deferrable", 103),
  ("deferred", 104),
  ("definer", 105),
  ("delete", 106),
  ("delimiter", 107),
  ("delimiters", 108),
  ("depends", 109),
  ("depth", 110),
  ("desc", 111),
  ("detach", 112),
  ("dictionary", 113),
  ("disable", 114),
  ("discard", 115),
  ("distinct", 116),
  ("do", 117),
  ("document", 118),
  ("domain", 119),
  ("double", 120),
  ("drop", 121),
  ("each", 122),
  ("else", 123),
  ("empty", 124),
  ("enable", 125),
  ("encoding", 126),
  ("encrypted", 127),
  ("end", 128),
  ("enforced", 129),
  ("enum", 130),
  ("error", 131),
  ("escape", 132),
  ("event", 133),
  ("except", 134),
  ("exclude", 135),
  ("excluding", 136),
  ("exclusive", 137),
  ("execute", 138),
  ("exists", 139),
  ("explain", 140),
  ("expression", 141),
  ("extension", 142),
  ("external", 143),
  ("extract", 144),
  ("false", 145),
  ("family", 146),
  ("fetch", 147),
  ("filter", 148),
  ("finalize", 149),
  ("first", 150),
  ("float", 151),
  ("following", 152),
  ("for", 153),
  ("force", 154),
  ("foreign", 155),
  ("format", 156),
  ("forward", 157),
  ("freeze", 158),
  ("from", 159),
  ("full", 160),
  ("function", 161),
  ("functions", 162),
  ("generated", 163),
  ("global", 164),
  ("grant", 165),
  ("granted", 166),
  ("greatest", 167),
  ("group", 168),
  ("grouping", 169),
  ("groups", 170),
  ("handler", 171),
  ("having", 172),
  ("header", 173),
  ("hold", 174),
  ("hour", 175),
  ("identity", 176),
  ("if", 177),
  ("ignore", 178),
  ("ilike", 179),
  ("immediate", 180),
  ("immutable", 181),
  ("implicit", 182),
  ("import", 183),
  ("in", 184),
  ("include", 185),
  ("including", 186),
  ("increment", 187),
  ("indent", 188),
  ("index", 189),
  ("indexes", 190),
  ("inherit", 191),
  ("inherits", 192),
  ("initially", 193),
  ("inline", 194),
  ("inner", 195),
  ("inout", 196),
  ("input", 197),
  ("insensitive", 198),
  ("insert", 199),
  ("instead", 200),
  ("int", 201),
  ("integer", 202),
  ("intersect", 203),
  ("interval", 204),
  ("into", 205),
  ("invoker", 206),
  ("is", 207),
  ("isnull", 208),
  ("isolation", 209),
  ("join", 210),
  ("json", 211),
  ("json_array", 212),
  ("json_arrayagg", 213),
  ("json_exists", 214),
  ("json_object", 215),
  ("json_objectagg", 216),
  ("json_query", 217),
  ("json_scalar", 218),
  ("json_serialize", 219),
  ("json_table", 220),
  ("json_value", 221),
  ("keep", 222),
  ("key", 223),
  ("keys", 224),
  ("label", 225),
  ("language", 226),
  ("large", 227),
  ("last", 228),
  ("lateral", 229),
  ("leading", 230),
  ("leakproof", 231),
  ("least", 232),
  ("left", 233),
  ("level", 234),
  ("like", 235),
  ("limit", 236),
  ("listen", 237),
  ("load", 238),
  ("local", 239),
  ("localtime", 240),
  ("localtimestamp", 241),
  ("location", 242),
  ("lock", 243),
  ("locked", 244),
  ("logged", 245),
  ("lsn", 246),
  ("mapping", 247),
  ("match", 248),
  ("matched", 249),
  ("materialized", 250),
  ("maxvalue", 251),
  ("merge", 252),
  ("merge_action", 253),
  ("method", 254),
  ("minute", 255),
  ("minvalue", 256),
  ("mode", 257),
  ("month", 258),
  ("move", 259),
  ("name", 260),
  ("names", 261),
  ("national", 262),
  ("natural", 263),
  ("nchar", 264),
  ("nested", 265),
  ("new", 266),
  ("next", 267),
  ("nfc", 268),
  ("nfd", 269),
  ("nfkc", 270),
  ("nfkd", 271),
  ("no", 272),
  ("none", 273),
  ("normalize", 274),
  ("normalized", 275),
  ("not", 276),
  ("nothing", 277),
  ("notify", 278),
  ("notnull", 279),
  ("nowait", 280),
  ("null", 281),
  ("nullif", 282),
  ("nulls", 283),
  ("numeric", 284),
  ("object", 285),
  ("objects", 286),
  ("of", 287),
  ("off", 288),
  ("offset", 289),
  ("oids", 290),
  ("old", 291),
  ("omit", 292),
  ("on", 293),
  ("only", 294),
  ("operator", 295),
  ("option", 296),
  ("options", 297),
  ("or", 298),
  ("order", 299),
  ("ordinality", 300),
  ("others", 301),
  ("out", 302),
  ("outer", 303),
  ("over", 304),
  ("overlaps", 305),
  ("overlay", 306),
  ("overriding", 307),
  ("owned", 308),
  ("owner", 309),
  ("parallel", 310),
  ("parameter", 311),
  ("parser", 312),
  ("partial", 313),
  ("partition", 314),
  ("partitions", 315),
  ("passing", 316),
  ("password", 317),
  ("path", 318),
  ("period", 319),
  ("placing", 320),
  ("plan", 321),
  ("plans", 322),
  ("policy", 323),
  ("position", 324),
  ("preceding", 325),
  ("precision", 326),
  ("prepare", 327),
  ("prepared", 328),
  ("preserve", 329),
  ("primary", 330),
  ("prior", 331),
  ("privileges", 332),
  ("procedural", 333),
  ("procedure", 334),
  ("procedures", 335),
  ("program", 336),
  ("publication", 337),
  ("quote", 338),
  ("quotes", 339),
  ("range", 340),
  ("read", 341),
  ("real", 342),
  ("reassign", 343),
  ("recursive", 344),
  ("ref", 345),
  ("references", 346),
  ("referencing", 347),
  ("refresh", 348),
  ("reindex", 349),
  ("relative", 350),
  ("release", 351),
  ("rename", 352),
  ("repeatable", 353),
  ("replace", 354),
  ("replica", 355),
  ("reset", 356),
  ("respect", 357),
  ("restart", 358),
  ("restrict", 359),
  ("return", 360),
  ("returning", 361),
  ("returns", 362),
  ("revoke", 363),
  ("right", 364),
  ("role", 365),
  ("rollback", 366),
  ("rollup", 367),
  ("routine", 368),
  ("routines", 369),
  ("row", 370),
  ("rows", 371),
  ("rule", 372),
  ("savepoint", 373),
  ("scalar", 374),
  ("schema", 375),
  ("schemas", 376),
  ("scroll", 377),
  ("search", 378),
  ("second", 379),
  ("security", 380),
  ("select", 381),
  ("sequence", 382),
  ("sequences", 383),
  ("serializable", 384),
  ("server", 385),
  ("session", 386),
  ("session_user", 387),
  ("set", 388),
  ("setof", 389),
  ("sets", 390),
  ("share", 391),
  ("show", 392),
  ("similar", 393),
  ("simple", 394),
  ("skip", 395),
  ("smallint", 396),
  ("snapshot", 397),
  ("some", 398),
  ("source", 399),
  ("split", 400),
  ("sql", 401),
  ("stable", 402),
  ("standalone", 403),
  ("start", 404),
  ("statement", 405),
  ("statistics", 406),
  ("stdin", 407),
  ("stdout", 408),
  ("storage", 409),
  ("stored", 410),
  ("strict", 411),
  ("string", 412),
  ("strip", 413),
  ("subscription", 414),
  ("substring", 415),
  ("support", 416),
  ("symmetric", 417),
  ("sysid", 418),
  ("system", 419),
  ("system_user", 420),
  ("table", 421),
  ("tables", 422),
  ("tablesample", 423),
  ("tablespace", 424),
  ("target", 425),
  ("temp", 426),
  ("template", 427),
  ("temporary", 428),
  ("text", 429),
  ("then", 430),
  ("ties", 431),
  ("time", 432),
  ("timestamp", 433),
  ("to", 434),
  ("trailing", 435),
  ("transaction", 436),
  ("transform", 437),
  ("treat", 438),
  ("trigger", 439),
  ("trim", 440),
  ("true", 441),
  ("truncate", 442),
  ("trusted", 443),
  ("type", 444),
  ("types", 445),
  ("uescape", 446),
  ("unbounded", 447),
  ("uncommitted", 448),
  ("unconditional", 449),
  ("unencrypted", 450),
  ("union", 451),
  ("unique", 452),
  ("unknown", 453),
  ("unlisten", 454),
  ("unlogged", 455),
  ("until", 456),
  ("update", 457),
  ("user", 458),
  ("using", 459),
  ("vacuum", 460),
  ("valid", 461),
  ("validate", 462),
  ("validator", 463),
  ("value", 464),
  ("values", 465),
  ("varchar", 466),
  ("variadic", 467),
  ("varying", 468),
  ("verbose", 469),
  ("version", 470),
  ("view", 471),
  ("views", 472),
  ("virtual", 473),
  ("volatile", 474),
  ("wait", 475),
  ("when", 476),
  ("where", 477),
  ("whitespace", 478),
  ("window", 479),
  ("with", 480),
  ("within", 481),
  ("without", 482),
  ("work", 483),
  ("wrapper", 484),
  ("write", 485),
  ("xml", 486),
  ("xmlattributes", 487),
  ("xmlconcat", 488),
  ("xmlelement", 489),
  ("xmlexists", 490),
  ("xmlforest", 491),
  ("xmlnamespaces", 492),
  ("xmlparse", 493),
  ("xmlpi", 494),
  ("xmlroot", 495),
  ("xmlserialize", 496),
  ("xmltable", 497),
  ("year", 498),
  ("yes", 499),
  ("zone", 500)
]

/-- `KEYWORD_MAP.get` from symbols.rs: look a spelling up in the static
keyword table, yielding its id. -/
def keywordMapGet (s : List Nat) : Option Nat :=
  (keywordEntries.find? (fun e => ascii e.1 == s)).map (fun e => e.2)

/-- `KEYWORDS[id]` from symbols.rs: the spelling registered for a keyword
id, if any. -/
def keywordsGet (id : Nat) : Option (List Nat) :=
  (keywordEntries.find? (fun e => e.2 == id)).map (fun e => ascii e.1)

/-- `SymbolCase` from symbols.rs. -/
inductive SymbolCase where
  | Keyword (id : Nat)
  | Custom (s : List Nat)
deriving DecidableEq, Repr

/-- `Symbol` from symbols.rs. Its Rust `PartialEq`/`Eq` are `#[derive]`d,
which is exactly the structural `DecidableEq` derived here: two symbols are
`=` iff they have the same representation with the same payload. -/
structure Symbol where
  inner : SymbolCase
deriving DecidableEq, Repr

/-- `Symbol::trivially_equal` from symbols.rs: the identity fast path,
true only when both sides are keywords with the same id. -/
def Symbol.triviallyEqual (a b : Symbol) : Bool :=
  match a.inner, b.inner with
  | .Keyword id1, .Keyword id2 => id1 == id2
  | _, _ => false

/-- `impl Deref for Symbol` from symbols.rs: dereference to the text.
`KEYWORDS[*id].unwrap()` panics on an unregistered id, modelled by
`none`. -/
def Symbol.deref (a : Symbol) : Option (List Nat) :=
  match a.inner with
  | .Keyword id => keywordsGet id
  | .Custom s => some s

/-- Byte-wise lexicographic ordering, which is exactly `<str as Ord>::cmp`
on the UTF-8 bytes. -/
def bytesCmp : List Nat → List Nat → Ordering
  | [], [] => .eq
  | [], _ :: _ => .lt
  | _ :: _, [] => .gt
  | a :: as_, b :: bs =>
    if a < b then .lt else if b < a then .gt else bytesCmp as_ bs

/-- `impl Ord for Symbol` from symbols.rs: the keyword-id fast path, then
text comparison of the two dereferenced spellings. -/
def Symbol.cmp (a b : Symbol) : Option Ordering :=
  if a.triviallyEqual b then some .eq
  else
    match a.deref, b.deref with
    | some x, some y => some (bytesCmp x y)
    | _, _ => none

/-- `impl Hash for Symbol` from symbols.rs hashes `&**self`, so the hash
input is the dereferenced text; this models that hash input. -/
def Symbol.hashKey (a : Symbol) : Option (List Nat) := a.deref

/-- `TokenKind` from token.rs. `BigInt` is modelled as `Int`.
The `Keyword` constructor is the one piece not in the snapshot of
token.rs: it is modelled from the spec, which requires that on a keyword
hit the lexer "emit that keyword's TokenKind" (one kind per table id);
parser.rs matches on such a kind (`TokenKind::KeywordSelect`) although its
declaration is missing from token.rs, so `Keyword id` stands for that
family of keyword-specific kinds. -/
inductive TokenKind where
  | Eof
  | Identifier (name : Symbol) (quoted : Bool)
  | Integer (value : Int)
  | LParen
  | RParen
  | LBracket
  | RBracket
  | LBrace
  | RBrace
  | Dot
  | DotDot
  | Comma
  | Colon
  | ColonEq
  | ColonColon
  | Semicolon
  | Caret
  | Asterisk
  | Slash
  | Percent
  | Plus
  | Minus
  | Eq
  | FatArrow
  | Neq
  | Lt
  | Gt
  | Le
  | Ge
  | UserOp (sym : List Nat)
  | Unknown
  | Keyword (id : Nat)
deriving DecidableEq, Repr

/-- `Token` from token.rs. -/
structure Token where
  kind : TokenKind
  range : CodeRange
deriving DecidableEq, Repr

/-- Id of the `select` keyword in the static table (`"select" => (381, _)`
in symbols.rs). -/
def selectKeywordId : Nat := 381

/-- `TokenKind::KeywordSelect` as matched by parser.rs: the keyword kind
carrying the `select` table id. -/
def TokenKind.KeywordSelect : TokenKind := .Keyword selectKeywordId

/-- `byte_pattern!(digit)` from lexer.rs. -/
def isDigit (b : Nat) : Bool := 48 ≤ b && b ≤ 57

/-- `byte_pattern!(ident_start)` from lexer.rs: ASCII letters, `_`, or any
byte at or above 0x80. -/
def isIdentStart (b : Nat) : Bool :=
  (65 ≤ b && b ≤ 90) || (97 ≤ b && b ≤ 122) || b == 95 || (128 ≤ b && b ≤ 255)

/-- `byte_pattern!(ident_continue)` from lexer.rs. -/
def isIdentContinue (b : Nat) : Bool :=
  isIdentStart b || isDigit b || b == 36

/-- `byte_pattern!(symbol_base)` from lexer.rs: `+ - * / < > =`. -/
def isSymbolBase (b : Nat) : Bool :=
  b == 43 || b == 45 || b == 42 || b == 47 || b == 60 || b == 62 || b == 61

/-- `byte_pattern!(symbol_extra)` from lexer.rs. -/
def isSymbolExtra (b : Nat) : Bool :=
  b == 126 || b == 33 || b == 64 || b == 35 || b == 37 || b == 94 ||
    b == 38 || b == 124 || b == 96 || b == 63

/-- `byte_pattern!(symbol)` from lexer.rs. -/
def isSymbolByte (b : Nat) : Bool := isSymbolBase b || isSymbolExtra b

/-- `str::to_ascii_lowercase` acts byte-wise on ASCII uppercase letters and
leaves every other byte unchanged. -/
def asciiLowerByte (b : Nat) : Nat :=
  if 65 ≤ b && b ≤ 90 then b + 32 else b

/-- `str::is_char_boundary` at an in-bounds position: the byte is not a
UTF-8 continuation byte. Rust string slicing `&s[pos..]` panics when this
is false. -/
def isCharBoundaryByte (b : Nat) : Bool := b < 128 || 192 ≤ b

/-- Decode the UTF-8 code point starting at `pos` (assuming well-formed
UTF-8, which `&str` guarantees). -/
def decodeCp (src : List Nat) (pos : Nat) : Nat :=
  let b0 := src.getD pos 0
  if b0 < 128 then b0
  else if b0 < 224 then
    (b0 - 192) * 64 + src.getD (pos + 1) 0 % 64
  else if b0 < 240 then
    (b0 - 224) * 4096 + src.getD (pos + 1) 0 % 64 * 64 + src.getD (pos + 2) 0 % 64
  else
    (b0 - 240) * 262144 + src.getD (pos + 1) 0 % 64 * 4096 +
      src.getD (pos + 2) 0 % 64 * 64 + src.getD (pos + 3) 0 % 64

/-- `char::is_whitespace`: the Unicode White_Space code points. -/
def isWhitespaceCp (c : Nat) : Bool :=
  [0x09, 0x0A, 0x0B, 0x0C, 0x0D, 0x20, 0x85, 0xA0, 0x1680,
   0x2000, 0x2001, 0x2002, 0x2003, 0x2004, 0x2005, 0x2006, 0x2007,
   0x2008, 0x2009, 0x200A, 0x2028, 0x2029, 0x202F, 0x205F, 0x3000].contains c

/-- `Lexer::skip_whitespace` from lexer.rs. The loop slices `&src[pos..]`
(which panics — `none` — at a non-character-boundary), tests whether the
first character is whitespace, and then advances the cursor by one BYTE,
exactly as the source does. -/
def skipWs (src : List Nat) (fuel pos : Nat) : Option Nat :=
  match fuel with
  | 0 => none
  | f + 1 =>
    if pos < src.length then
      if isCharBoundaryByte (src.getD pos 0) then
        if isWhitespaceCp (decodeCp src pos) then skipWs src f (pos + 1)
        else some pos
      else none
    else some pos

/-- The shared identifier/numeric continuation scan from lexer.rs
(`while ... ident_continue ... pos += 1`): first position at or after
`pos` that is out of input or not an identifier-continuation byte. -/
def identScanEnd (src : List Nat) (fuel pos : Nat) : Nat :=
  match fuel with
  | 0 => pos
  | f + 1 =>
    if pos < src.length && isIdentContinue (src.getD pos 0) then
      identScanEnd src f (pos + 1)
    else pos

/-- `&src[start..stop]` as a byte list. -/
def sliceBytes (src : List Nat) (start stop : Nat) : List Nat :=
  (src.drop start).take (stop - start)

/-- `Lexer::next_identifier_token` from lexer.rs: scan the continuation
bytes, ASCII-lowercase the captured text, then resolve it against the
static keyword table. The keyword branch (emitting the keyword-specific
`TokenKind`) is modelled from the spec: the declarations of the keyword
token kinds are missing from the token.rs snapshot although parser.rs
matches on `TokenKind::KeywordSelect`; on a miss the text is interned,
which yields a custom symbol, and a generic identifier token is built. -/
def nextIdentifierToken (src : List Nat) (start : Nat)
    (ds : List CodeDiagnostic) : Option (Token × Nat × List CodeDiagnostic) :=
  let stop := identScanEnd src (src.length + 1) start
  let folded := (sliceBytes src start stop).map asciiLowerByte
  match keywordMapGet folded with
  | some id => some (⟨.Keyword id, ⟨start, stop⟩⟩, stop, ds)
  | none =>
    some (⟨.Identifier ⟨.Custom folded⟩ false, ⟨start, stop⟩⟩, stop, ds)

/-- `Lexer::is_decimal_integer` from lexer.rs: every byte is an ASCII
digit or an underscore. -/
def isDecimalInteger (s : List Nat) : Bool :=
  s.all (fun b => isDigit b || b == 95)

/-- `Lexer::remove_underscores` from lexer.rs. -/
def stripUnderscores (s : List Nat) : List Nat :=
  s.filter (fun b => b != 95)

/-- Base-10 value of an ASCII digit string, i.e. `str::parse::<BigInt>`
on an all-digit input. -/
def natFromDigits (s : List Nat) : Nat :=
  s.foldl (fun acc b => acc * 10 + (b - 48)) 0

/-- `Lexer::next_numeric_token` from lexer.rs: capture the same
continuation-byte run, then either parse it (after underscore removal) as
a base-10 integer or report an unknown token over the whole span. -/
def nextNumericToken (src : List Nat) (start : Nat)
    (ds : List CodeDiagnostic) : Option (Token × Nat × List CodeDiagnostic) :=
  let stop := identScanEnd src (src.length + 1) start
  let s := sliceBytes src start stop
  if isDecimalInteger s then
    some (⟨.Integer (Int.ofNat (natFromDigits (stripUnderscores s))), ⟨start, stop⟩⟩,
      stop, ds)
  else
    some (⟨.Unknown, ⟨start, stop⟩⟩, stop, ds ++ [.UnknownToken ⟨start, stop⟩])

/-- The two-byte comment openers `--` and `/*` from lexer.rs. -/
def isCommentStart (a b : Nat) : Bool :=
  (a == 45 && b == 45) || (a == 47 && b == 42)

/-- The greedy operator scan from `Lexer::next_operator_token`: starting
one past the first byte, keep consuming operator-class bytes, but if the
last two consumed bytes ever form `--` or `/*`, back off two bytes and
stop. Returns the cursor after the loop. -/
def opScan (src : List Nat) (fuel pos : Nat) : Nat :=
  match fuel with
  | 0 => pos
  | f + 1 =>
    if pos < src.length && isSymbolByte (src.getD pos 0) then
      if isCommentStart (src.getD (pos - 1) 0) (src.getD pos 0) then pos - 1
      else opScan src f (pos + 1)
    else pos

/-- The built-in operator spelling table from `Lexer::next_operator_token`;
anything unlisted is a user-defined operator carrying its text. -/
def builtinOpKind (sym : List Nat) : TokenKind :=
  if sym == ascii "^" then .Caret
  else if sym == ascii "*" then .Asterisk
  else if sym == ascii "/" then .Slash
  else if sym == ascii "%" then .Percent
  else if sym == ascii "+" then .Plus
  else if sym == ascii "-" then .Minus
  else if sym == ascii "=" then .Eq
  else if sym == ascii "=>" then .FatArrow
  else if sym == ascii "<>" || sym == ascii "!=" then .Neq
  else if sym == ascii "<" then .Lt
  else if sym == ascii ">" then .Gt
  else if sym == ascii "<=" then .Le
  else if sym == ascii ">=" then .Ge
  else .UserOp sym

/-- `Lexer::next_operator_token` from lexer.rs. A zero-length run after
the comment back-off hits `unimplemented!("comment handling")`, modelled
as `none`. After the greedy scan, a trailing `+` or `-` is trimmed exactly
when the run is longer than one byte and consists of base symbols only. -/
def nextOperatorToken (src : List Nat) (start : Nat)
    (ds : List CodeDiagnostic) : Option (Token × Nat × List CodeDiagnostic) :=
  let pos := opScan src (src.length + 1) (start + 1)
  if pos == start then none
  else
    let sym := sliceBytes src start pos
    let trim := decide (1 < sym.length) &&
      (sym.getLast? == some 43 || sym.getLast? == some 45) &&
      sym.all isSymbolBase
    let pos2 := if trim then pos - 1 else pos
    let sym2 := sliceBytes src start pos2
    some (⟨builtinOpKind sym2, ⟨start, pos2⟩⟩, pos2, ds)

/-- `Lexer::next_token` from lexer.rs: skip whitespace (remembering the
pre-skip position, which the Eof token's range starts at), then dispatch
on the leading byte class. -/
def nextToken (src : List Nat) (pos0 : Nat) (ds : List CodeDiagnostic) :
    Option (Token × Nat × List CodeDiagnostic) :=
  match skipWs src (src.length + 1) pos0 with
  | none => none
  | some pos =>
    if src.length ≤ pos then
      some (⟨.Eof, ⟨pos0, pos⟩⟩, pos, ds)
    else
      let b := src.getD pos 0
      if isIdentStart b then nextIdentifierToken src pos ds
      else if isDigit b then nextNumericToken src pos ds
      else if b == 40 then some (⟨.LParen, ⟨pos, pos + 1⟩⟩, pos + 1, ds)
      else if b == 41 then some (⟨.RParen, ⟨pos, pos + 1⟩⟩, pos + 1, ds)
      else if b == 91 then some (⟨.LBracket, ⟨pos, pos + 1⟩⟩, pos + 1, ds)
      else if b == 93 then some (⟨.RBracket, ⟨pos, pos + 1⟩⟩, pos + 1, ds)
      else if b == 123 then some (⟨.LBrace, ⟨pos, pos + 1⟩⟩, pos + 1, ds)
      else if b == 125 then some (⟨.RBrace, ⟨pos, pos + 1⟩⟩, pos + 1, ds)
      else if b == 46 then
        if pos + 1 < src.length && src.getD (pos + 1) 0 == 46 then
          some (⟨.DotDot, ⟨pos, pos + 2⟩⟩, pos + 2, ds)
        else some (⟨.Dot, ⟨pos, pos + 1⟩⟩, pos + 1, ds)
      else if b == 44 then some (⟨.Comma, ⟨pos, pos + 1⟩⟩, pos + 1, ds)
      else if b == 58 then
        if pos + 1 < src.length && src.getD (pos + 1) 0 == 58 then
          some (⟨.ColonColon, ⟨pos, pos + 2⟩⟩, pos + 2, ds)
        else if pos + 1 < src.length && src.getD (pos + 1) 0 == 61 then
          some (⟨.ColonEq, ⟨pos, pos + 2⟩⟩, pos + 2, ds)
        else some (⟨.Colon, ⟨pos, pos + 1⟩⟩, pos + 1, ds)
      else if b == 59 then some (⟨.Semicolon, ⟨pos, pos + 1⟩⟩, pos + 1, ds)
      else if isSymbolByte b then nextOperatorToken src pos ds
      else
        some (⟨.Unknown, ⟨pos, pos + 1⟩⟩, pos + 1,
          ds ++ [.UnknownToken ⟨pos, pos + 1⟩])

/-- The token-collecting loop of `lex_with_diags` from lexer.rs: pull
tokens until Eof, which is dropped. -/
def lexLoop (src : List Nat) (fuel pos : Nat) (ds : List CodeDiagnostic)
    (acc : List Token) : Option (List Token × List CodeDiagnostic) :=
  match fuel with
  | 0 => none
  | f + 1 =>
    match nextToken src pos ds with
    | none => none
    | some (tok, pos1, ds1) =>
      if tok.kind == .Eof then some (acc, ds1)
      else lexLoop src f pos1 ds1 (acc ++ [tok])

/-- `lex_with_diags` from lexer.rs. -/
def lexTokens (src : List Nat) : Option (List Token × List CodeDiagnostic) :=
  lexLoop src (src.length + 1) 0 [] []

/-- `ExprKind` from ast.rs: the value is already narrowed to `i64`. -/
inductive ExprKind where
  | IntegerLiteral (value : Int)
deriving DecidableEq, Repr

/-- `ExprNode` from ast.rs. -/
structure ExprNode where
  kind : ExprKind
  range : CodeRange
deriving DecidableEq, Repr

/-- `StmtKind` from ast.rs. -/
inductive StmtKind where
  | Select (selectList : List ExprNode)
deriving DecidableEq, Repr

/-- `StmtNode` from ast.rs. -/
structure StmtNode where
  kind : StmtKind
  range : CodeRange
deriving DecidableEq, Repr

/-- `StmtMultiNode` from ast.rs. -/
structure StmtMultiNode where
  stmts : List StmtNode
deriving DecidableEq, Repr

/-- `BigInt::try_into::<i64>()`: succeeds exactly on values representable
in the signed 64-bit range and is the identity there. -/
def i64Narrow (v : Int) : Option Int :=
  if -(2 ^ 63) ≤ v ∧ v < 2 ^ 63 then some v else none

/-- `Parser::parse_expr` from parser.rs: an integer-literal lookahead
becomes an `IntegerLiteral` node with the narrowed value (`unwrap` on a
failed narrowing, and any other lookahead's `unimplemented!`, are
`none`); the next lookahead token is fetched before returning. -/
def parseExpr (src : List Nat) (tok0 : Token) (pos : Nat)
    (ds : List CodeDiagnostic) :
    Option (ExprNode × Token × Nat × List CodeDiagnostic) :=
  match tok0.kind with
  | .Integer v =>
    match i64Narrow v with
    | none => none
    | some w =>
      match nextToken src pos ds with
      | none => none
      | some t => some (⟨.IntegerLiteral w, tok0.range⟩, t)
  | _ => none

/-- `Parser::parse_stmt` from parser.rs: requires the SELECT keyword
lookahead (anything else is `unimplemented!`), parses one expression as
the whole select list, and anchors the statement range at the keyword
token's range. -/
def parseStmt (src : List Nat) (tok0 : Token) (pos : Nat)
    (ds : List CodeDiagnostic) :
    Option (StmtNode × Token × Nat × List CodeDiagnostic) :=
  if tok0.kind == TokenKind.KeywordSelect then
    match nextToken src pos ds with
    | none => none
    | some (tok1, pos1, ds1) =>
      match parseExpr src tok1 pos1 ds1 with
      | none => none
      | some (expr, tok2, pos2, ds2) =>
        some (⟨.Select [expr], tok0.range⟩, tok2, pos2, ds2)
  else none

/-- `Parser::parse_stmt_toplevel` from parser.rs: fetch the first
lookahead, parse one statement, and report a leftover non-Eof token as an
unexpected-end-of-input diagnostic. -/
def parseStmtToplevel (src : List Nat) :
    Option (StmtNode × List CodeDiagnostic) :=
  match nextToken src 0 [] with
  | none => none
  | some (tok0, pos0, ds0) =>
    match parseStmt src tok0 pos0 ds0 with
    | none => none
    | some (stmt, tok1, _, ds1) =>
      if tok1.kind == .Eof then some (stmt, ds1)
      else some (stmt, ds1 ++ [.UnexpectedEof tok1.range])

/-- `parse_stmt` (the public single-statement entry point) from parser.rs:
run the toplevel parse, then `check_errors`. -/
def parseStmtEntry (src : List Nat) : Option (Except CodeError StmtNode) :=
  (parseStmtToplevel src).map
    (fun r =>
      match checkErrors r.2 with
      | .ok _ => .ok r.1
      | .error e => .error e)

/-- The loop of `Parser::parse_stmtmulti` from parser.rs: after each
statement, a semicolon lookahead fetches a fresh lookahead and continues
with another statement, an Eof lookahead ends the sequence, and anything
else is a hard panic (`none`). -/
def parseStmtmultiLoop (src : List Nat) (fuel : Nat) (tok0 : Token)
    (pos : Nat) (ds : List CodeDiagnostic) (acc : List StmtNode) :
    Option (List StmtNode × Token × Nat × List CodeDiagnostic) :=
  match fuel with
  | 0 => none
  | f + 1 =>
    match parseStmt src tok0 pos ds with
    | none => none
    | some (stmt, tok1, pos1, ds1) =>
      if tok1.kind == .Semicolon then
        match nextToken src pos1 ds1 with
        | none => none
        | some (tok0', pos', ds') =>
          parseStmtmultiLoop src f tok0' pos' ds' (acc ++ [stmt])
      else if tok1.kind == .Eof then some (acc ++ [stmt], tok1, pos1, ds1)
      else none

/-- `Parser::parse_stmtmulti_toplevel` from parser.rs: fetch the first
lookahead, run the statement-sequence loop, and panic (`none`) on a
non-Eof leftover. -/
def parseStmtmultiToplevel (src : List Nat) :
    Option (StmtMultiNode × List CodeDiagnostic) :=
  match nextToken src 0 [] with
  | none => none
  | some (tok0, pos0, ds0) =>
    match parseStmtmultiLoop src (src.length + 1) tok0 pos0 ds0 [] with
    | none => none
    | some (stmts, tok1, _, ds1) =>
      if tok1.kind == .Eof then some (⟨stmts⟩, ds1) else none

/-- `parse_stmtmulti` (the public statement-sequence entry point) from
parser.rs: run the toplevel parse, then `check_errors`. -/
def parseStmtmultiEntry (src : List Nat) :
    Option (Except CodeError StmtMultiNode) :=
  (parseStmtmultiToplevel src).map
    (fun r =>
      match checkErrors r.2 with
      | .ok _ => .ok r.1
      | .error e => .error e)

/-- The `select` spelling really carries id 381 in the static table. -/
theorem keywordMapGet_select : keywordMapGet (ascii "select") = some selectKeywordId := by
  rfl

/-- Claim C1: parsing "select 42" with the single-statement entry point
succeeds with no diagnostics and returns one Select statement whose select
list holds exactly one expression, IntegerLiteral 42; the statement's
range starts at the byte offset of "select" (0) and the expression's
range is exactly the byte span of "42" (bytes 7 to 9). -/
theorem C1_parse_select_42 :
    parseStmtEntry (ascii "select 42") =
      some (.ok ⟨.Select [⟨.IntegerLiteral 42, ⟨7, 9⟩⟩], ⟨0, 6⟩⟩) := by
  rfl

/-- Claim C2, counterexample: "select 1;" is NOT accepted by the
statement-sequence entry point — after consuming the trailing semicolon
the parser calls parse_stmt on the Eof lookahead and hits
unimplemented, a panic — while "select 1" is accepted, so the two do not
parse to the same one-statement sequence. -/
theorem C2_trailing_semicolon_panics :
    parseStmtmultiEntry (ascii "select 1;") = none ∧
    parseStmtmultiEntry (ascii "select 1") =
      some (.ok ⟨[⟨.Select [⟨.IntegerLiteral 1, ⟨7, 8⟩⟩], ⟨0, 6⟩⟩]⟩) := by
  exact ⟨by rfl, by rfl⟩

/-- Claim C2, amended: reaching end-of-input directly after a statement
(no semicolon) terminates the sequence normally, and semicolons separate
statements, but a semicolon immediately followed by end-of-input is NOT
accepted: the parser consumes it and attempts another statement at Eof,
which is a hard failure, so "select 1;" fails while "select 1" and
"select 1; select 2" parse. -/
theorem C2_stmtmulti_termination :
    parseStmtmultiEntry (ascii "select 1") =
      some (.ok ⟨[⟨.Select [⟨.IntegerLiteral 1, ⟨7, 8⟩⟩], ⟨0, 6⟩⟩]⟩) ∧
    parseStmtmultiEntry (ascii "select 1; select 2") =
      some (.ok ⟨[⟨.Select [⟨.IntegerLiteral 1, ⟨7, 8⟩⟩], ⟨0, 6⟩⟩,
                  ⟨.Select [⟨.IntegerLiteral 2, ⟨17, 18⟩⟩], ⟨10, 16⟩⟩]⟩) ∧
    parseStmtmultiEntry (ascii "select 1;") = none := by
  exact ⟨by rfl, by rfl, by rfl⟩

/-- Claim C3: next_token does NOT always avoid hard failure. On the input
"--" the operator run becomes empty after the comment back-off and the
lexer hits unimplemented comment handling (a panic), and on the two-byte
UTF-8 encoding of U+00A0 (a multi-byte Unicode whitespace code point) the
whitespace skipper advances one byte into the character and the string
slice panics at a non-character-boundary. -/
theorem C3_lexer_panics :
    nextToken (ascii "--") 0 [] = none ∧
    nextToken [0xC2, 0xA0] 0 [] = none := by
  exact ⟨by rfl, by rfl⟩

/-- Claim C4: a keyword-representation Symbol for "select" and a
custom-representation Symbol with the same text dereference to the same
text and fall through to text comparison in cmp (Ordering.eq) and in the
hash input, but the derived equality distinguishes the representations
and returns false — equality is NOT determined purely by the dereferenced
text. -/
theorem C4_symbol_eq_not_text_pure :
    Symbol.deref ⟨.Keyword selectKeywordId⟩ = some (ascii "select") ∧
    Symbol.deref ⟨.Custom (ascii "select")⟩ = some (ascii "select") ∧
    Symbol.cmp ⟨.Keyword selectKeywordId⟩ ⟨.Custom (ascii "select")⟩ =
      some .eq ∧
    Symbol.hashKey ⟨.Keyword selectKeywordId⟩ =
      Symbol.hashKey ⟨.Custom (ascii "select")⟩ ∧
    (⟨.Keyword selectKeywordId⟩ : Symbol) ≠ ⟨.Custom (ascii "select")⟩ := by
  refine ⟨by rfl, by rfl, by rfl, by rfl, by decide⟩

/-- Claim C5: operator segmentation. "=<+" lexes to UserOp "=<" then
Plus (trailing sign trimmed off an all-base run), "@+" stays one UserOp
(an extra symbol blocks the trim), "=>+" lexes to FatArrow then Plus, the
all-symbol run "@~!#%^&|?+*/<=>-" is a single UserOp carrying the full
text, and the greedy run stops before completing the comment markers:
"<--" yields Lt over its first byte only and "=/*" yields Eq over its
first byte only. -/
theorem C5_operator_segmentation :
    lexTokens (ascii "=<+") =
      some ([⟨.UserOp (ascii "=<"), ⟨0, 2⟩⟩, ⟨.Plus, ⟨2, 3⟩⟩], []) ∧
    lexTokens (ascii "@+") =
      some ([⟨.UserOp (ascii "@+"), ⟨0, 2⟩⟩], []) ∧
    lexTokens (ascii "=>+") =
      some ([⟨.FatArrow, ⟨0, 2⟩⟩, ⟨.Plus, ⟨2, 3⟩⟩], []) ∧
    lexTokens (ascii "@~!#%^&|?+*/<=>-") =
      some ([⟨.UserOp (ascii "@~!#%^&|?+*/<=>-"), ⟨0, 16⟩⟩], []) ∧
    nextToken (ascii "<--") 0 [] = some (⟨.Lt, ⟨0, 1⟩⟩, 1, []) ∧
    nextToken (ascii "=/*") 0 [] = some (⟨.Eq, ⟨0, 1⟩⟩, 1, []) := by
  exact ⟨by rfl, by rfl, by rfl, by rfl, by rfl, by rfl⟩

/-- Claim C6, counterexample: the captured text "1_" carries an
underscore that is not an internal separator (it is trailing), yet the
lexer accepts it and yields Integer 1 with no diagnostic — underscores
are not restricted to internal-separator positions. -/
theorem C6_trailing_underscore_accepted :
    lexTokens (ascii "1_") = some ([⟨.Integer 1, ⟨0, 2⟩⟩], []) := by
  rfl

/-- Claim C6, amended: a digit-start token is parsed as a base-10 integer
exactly when its captured text, after stripping ASCII underscores,
consists solely of ASCII digits — with no check on underscore positions,
so trailing (or repeated) underscores are also accepted — leading zeros
allowed and the value computed after stripping; any other captured text
records an unknown-token diagnostic over its span and yields an Unknown
token. "12_345_678" and "12345678" lex to the same value and "00012345"
lexes to 12345. -/
theorem C6_numeric_lexing :
    (∀ s : List Nat, isDecimalInteger s = (stripUnderscores s).all isDigit) ∧
    lexTokens (ascii "12_345_678") = some ([⟨.Integer 12345678, ⟨0, 10⟩⟩], []) ∧
    lexTokens (ascii "12345678") = some ([⟨.Integer 12345678, ⟨0, 8⟩⟩], []) ∧
    lexTokens (ascii "00012345") = some ([⟨.Integer 12345, ⟨0, 8⟩⟩], []) ∧
    lexTokens (ascii "1_") = some ([⟨.Integer 1, ⟨0, 2⟩⟩], []) ∧
    lexTokens (ascii "12ab") =
      some ([⟨.Unknown, ⟨0, 4⟩⟩], [.UnknownToken ⟨0, 4⟩]) := by
  refine ⟨?_, by rfl, by rfl, by rfl, by rfl, by rfl⟩
  intro s
  induction s with
  | nil => rfl
  | cons b t ih =>
    by_cases h : b = 95
    · subst h
      simpa [isDecimalInteger, stripUnderscores] using ih
    · have hb : (b == 95) = false := by simpa using h
      simp only [isDecimalInteger, stripUnderscores] at ih ⊢
      simp [hb, h, ih]

/-- Claim C7: for every identifier-class token the lexer scans the
continuation bytes, folds only ASCII letters to lowercase, and looks the
folded text up in the static keyword table — on a hit it emits that
keyword's own token kind, and only on a miss does it emit a generic
identifier token carrying an interned custom symbol. "select" and
"SeLeCt" both lex to the select keyword kind, "foo" lexes to a custom
identifier, and the bytes of "FÖO" fold to those of "fÖo" (ASCII-only
folding) and lex to a custom identifier. -/
theorem C7_keyword_dispatch :
    (∀ (src : List Nat) (start : Nat) (ds : List CodeDiagnostic),
      nextIdentifierToken src start ds =
        (let stop := identScanEnd src (src.length + 1) start
         let folded := (sliceBytes src start stop).map asciiLowerByte
         match keywordMapGet folded with
         | some id => some (⟨.Keyword id, ⟨start, stop⟩⟩, stop, ds)
         | none =>
           some (⟨.Identifier ⟨.Custom folded⟩ false, ⟨start, stop⟩⟩,
             stop, ds))) ∧
    lexTokens (ascii "select") =
      some ([⟨.Keyword selectKeywordId, ⟨0, 6⟩⟩], []) ∧
    lexTokens (ascii "SeLeCt") =
      some ([⟨.Keyword selectKeywordId, ⟨0, 6⟩⟩], []) ∧
    lexTokens (ascii "foo") =
      some ([⟨.Identifier ⟨.Custom (ascii "foo")⟩ false, ⟨0, 3⟩⟩], []) ∧
    lexTokens [70, 195, 150, 79] =
      some ([⟨.Identifier ⟨.Custom [102, 195, 150, 111]⟩ false, ⟨0, 4⟩⟩], []) := by
  exact ⟨fun src start ds => rfl, by rfl, by rfl, by rfl, by rfl⟩

/-- Claim C8, counterexample: on the single-space input the first
next_token call returns an Eof token whose range spans the skipped
whitespace (start 0, stop 1 — not empty), and the following call returns
a different Eof token with the empty range at the final position, so the
result is neither empty-ranged nor idempotent on inputs ending in
trailing whitespace. -/
theorem C8_eof_range_counterexample :
    nextToken (ascii " ") 0 [] = some (⟨.Eof, ⟨0, 1⟩⟩, 1, []) ∧
    nextToken (ascii " ") 1 [] = some (⟨.Eof, ⟨1, 1⟩⟩, 1, []) ∧
    (⟨0, 1⟩ : CodeRange).start ≠ (⟨0, 1⟩ : CodeRange).stop ∧
    (⟨0, 1⟩ : CodeRange) ≠ ⟨1, 1⟩ := by
  exact ⟨by rfl, by rfl, by decide, by decide⟩

/-- Claim C8, amended: when whitespace skipping from the current cursor
reaches the end of input, next_token returns an Eof token whose range
runs from the PRE-skip cursor to the final position, leaving the cursor
at the end; the range is therefore empty and the result idempotent
exactly when the cursor was already at the end (in particular on every
call after the first Eof), while the first Eof after trailing whitespace
spans that whitespace. -/
theorem C8_eof_amended (src : List Nat) (pos : Nat)
    (ds : List CodeDiagnostic)
    (h : skipWs src (src.length + 1) pos = some src.length) :
    nextToken src pos ds =
      some (⟨.Eof, ⟨pos, src.length⟩⟩, src.length, ds) := by
  unfold nextToken
  rw [h]
  simp

/-- Witness for C8_eof_amended at the single-space input. -/
theorem C8_eof_amended_witness :
    nextToken (ascii " ") 0 [] =
      some (⟨.Eof, ⟨0, (ascii " ").length⟩⟩, (ascii " ").length, []) :=
  C8_eof_amended (ascii " ") 0 [] (by rfl)

/-- Claim C9: rendering the terminal error value: zero diagnostics give
the sentinel "No errors" line, exactly one gives that diagnostic's
message unembellished, more than one gives a count header followed by
each message in insertion order; check_errors returns the error value
exactly when the accumulator is non-empty; and the input of two
unscannable bytes produces exactly two diagnostics whose rendering is
"2 errors found:" followed by both messages in order. -/
theorem C9_error_rendering :
    CodeError.render ⟨[]⟩ = "No errors\n" ∧
    (∀ d : CodeDiagnostic, CodeError.render ⟨[d]⟩ = d.message ++ "\n") ∧
    (∀ (d1 d2 : CodeDiagnostic) (ds : List CodeDiagnostic),
      CodeError.render ⟨d1 :: d2 :: ds⟩ =
        toString (d1 :: d2 :: ds).length ++ " errors found:\n" ++
          String.join ((d1 :: d2 :: ds).map (fun d => d.message ++ "\n"))) ∧
    (∀ ds : List CodeDiagnostic, checkErrors ds = .error ⟨ds⟩ ↔ ds ≠ []) ∧
    lexTokens [0, 1] =
      some ([⟨.Unknown, ⟨0, 1⟩⟩, ⟨.Unknown, ⟨1, 2⟩⟩],
        [.UnknownToken ⟨0, 1⟩, .UnknownToken ⟨1, 2⟩]) ∧
    checkErrors [.UnknownToken ⟨0, 1⟩, .UnknownToken ⟨1, 2⟩] =
      .error ⟨[.UnknownToken ⟨0, 1⟩, .UnknownToken ⟨1, 2⟩]⟩ ∧
    CodeError.render ⟨[.UnknownToken ⟨0, 1⟩, .UnknownToken ⟨1, 2⟩]⟩ =
      "2 errors found:\nunknown token\nunknown token\n" := by
  refine ⟨by rfl, ?_, ?_, ?_, by rfl, by rfl, by rfl⟩
  · intro d
    cases d <;> rfl
  · intro d1 d2 ds
    simp [CodeError.render]
  · intro ds
    cases ds with
    | nil => simp [checkErrors, hasErrors]
    | cons d t => simp [checkErrors, hasErrors]

/-- Claim C10: for every integer-literal token whose value fits the
signed 64-bit range, parse_expr produces an IntegerLiteral node carrying
exactly that value (and the literal's range), then fetches the next
lookahead — the narrowing loses nothing for representable values. -/
theorem C10_narrowing_exact (v : Int) (r : CodeRange) (src : List Nat)
    (pos : Nat) (ds : List CodeDiagnostic)
    (h1 : -(2 ^ 63) ≤ v) (h2 : v < 2 ^ 63) :
    parseExpr src ⟨.Integer v, r⟩ pos ds =
      (nextToken src pos ds).map
        (fun t => (⟨.IntegerLiteral v, r⟩, t)) := by
  unfold parseExpr i64Narrow
  dsimp only
  rw [if_pos ⟨h1, h2⟩]
  cases nextToken src pos ds <;> rfl

/-- Witness for C10_narrowing_exact at value 42 on the empty input. -/
theorem C10_narrowing_exact_witness :
    parseExpr [] ⟨.Integer 42, ⟨0, 2⟩⟩ 0 [] =
      (nextToken [] 0 []).map
        (fun t => (⟨.IntegerLiteral 42, ⟨0, 2⟩⟩, t)) :=
  C10_narrowing_exact 42 ⟨0, 2⟩ [] 0 [] (by decide) (by decide)

end FeatherPg
